import Mathlib

/-!
Shallow embedding of the gotrue-rs client library (src/client.rs and
src/api.rs): the session lifecycle manager (`Client`) and the transport
binding (`Api`).

Each asynchronous client operation awaits exactly one transport call; we
embed an operation as a pure function that takes the transport's outcome
as an explicit argument and returns the operation's result, the updated
client state (for `&mut self` methods), and the list of transport
invocations performed during the call.  A Rust `panic!` is modelled
explicitly by the `RustOutcome.panic` constructor, since a panicking path
aborts rather than returning a value to the caller.
-/

namespace GoTrue

/-- Modelled from the spec: the `User` identity record (src/user.rs is not
under src/).  Spec §3: "identity record (id, email and/or phone,
confirmation flags, free-form attributes map)".  Only opaque field content
matters for the claims. -/
structure User where
  id : String
  email : String
  phone : String
  deriving DecidableEq, Repr

/-- Modelled from the spec: the `Session` record (src/session.rs is not
under src/).  Spec §3: "`access_token` (bearer credential, opaque string),
`refresh_token` (opaque string), `expires_in`/expiry metadata, embedded
`User`".  The fields `access_token` and `refresh_token` are the ones read
by src/client.rs (lines 72 and 108). -/
structure Session where
  access_token : String
  refresh_token : String
  expires_in : Nat
  user : User
  deriving DecidableEq, Repr

/-- Modelled from the spec: the library error enum (src/error.rs is not
under src/).  The three variants are exactly the ones constructed by
src/client.rs (lines 104, 109, 114), matching the spec §7 taxonomy. -/
inductive Error where
  | NotAuthenticated
  | MissingRefreshToken
  | InternalError
  deriving DecidableEq, Repr

/-- Modelled from the spec: the `UserUpdate` payload returned by the
update-user endpoint (src/user_update.rs is not under src/); opaque for
the claims. -/
structure UserUpdate where
  user : User
  deriving DecidableEq, Repr

/-- Modelled from the spec: `UserAttributes` (src/user_attributes.rs is
not under src/); fields per spec §6 request bodies: email, password,
free-form data. -/
structure UserAttributes where
  email : String
  password : String
  data : String
  deriving DecidableEq, Repr

/-- The `reqwest::Error` type is opaque to this library; we model it by its debug
rendering, a string. -/
abbrev ReqwestError := String

/-- Embeds `EmailOrPhone` from src/api.rs lines 15-18. -/
inductive EmailOrPhone where
  | Email (s : String)
  | Phone (s : String)
  deriving DecidableEq, Repr

/-- Outcome of a Rust function that may `panic!`: either a normal return
or a process abort carrying the panic message. -/
inductive RustOutcome (α : Type) where
  | ret (a : α)
  | panic (msg : String)
  deriving DecidableEq, Repr

/-- One transport invocation, recording the operation and the arguments
the session manager passed to it (src/api.rs methods used by
src/client.rs). -/
inductive ApiCall where
  | signUp (email password : String)
  | signIn (email password : String)
  | sendOtp (who : EmailOrPhone) (should_create_user : Option Bool)
  | verifyOtp (params : String)
  | signOut (access_token : String)
  | resetPasswordForEmail (email : String)
  | updateUser (attrs : UserAttributes) (jwt : String)
  | refreshAccessToken (refresh_token : String)
  deriving DecidableEq, Repr

/-- HTTP method of a request built by the transport. -/
inductive Method where
  | GET
  | POST
  | PUT
  | DELETE
  deriving DecidableEq, Repr

/-- Embeds `Api` from src/api.rs lines 9-13: base url plus static headers (the
reqwest client itself carries no observable state). -/
structure Api where
  url : String
  headers : List (String × String)
  deriving DecidableEq, Repr

/-- Embeds `Api::new` from src/api.rs lines 30-36. -/
def Api.new (url : String) : Api :=
  { url := url, headers := [] }

/-- An HTTP request as constructed by the transport: method, full
endpoint URL, headers. -/
structure Request where
  method : Method
  endpoint : String
  headers : List (String × String)
  deriving DecidableEq, Repr

/-- The request issued by `Api::list_users` (src/api.rs lines 527-547):
`GET {url}/admin/users{query}` where the optional query string is
appended verbatim, with the static headers attached. -/
def Api.list_users_request (api : Api) (query_string : Option String) : Request :=
  { method := Method.GET
    endpoint :=
      match query_string with
      | some query => api.url ++ "/admin/users" ++ query
      | none => api.url ++ "/admin/users"
    headers := api.headers }

/-- Embeds `Client` from src/client.rs lines 9-13. -/
structure Client where
  current_session : Option Session
  auto_refresh_token : Bool
  api : Api
  deriving DecidableEq, Repr

/-- Embeds `Client::new` from src/client.rs lines 16-22. -/
def Client.new (url : String) : Client :=
  { auto_refresh_token := true
    current_session := none
    api := Api.new url }

/-- Embeds `Client::sign_up` from src/client.rs lines 24-34.  The transport
outcome of `Api::sign_up` is the `tr` argument.  On `Ok(session)` the
session is installed as current and returned; on `Err(e)` the code runs
`panic!("{:?}", e)`. -/
def Client.sign_up (c : Client) (email password : String)
    (tr : Except ReqwestError Session) :
    RustOutcome (Session × Client) × List ApiCall :=
  (match tr with
   | .ok session => .ret (session, { c with current_session := some session })
   | .error e => .panic e,
   [ApiCall.signUp email password])

/-- Embeds `Client::sign_in` from src/client.rs lines 36-46; same shape as
`sign_up` against the credential grant endpoint. -/
def Client.sign_in (c : Client) (email password : String)
    (tr : Except ReqwestError Session) :
    RustOutcome (Session × Client) × List ApiCall :=
  (match tr with
   | .ok session => .ret (session, { c with current_session := some session })
   | .error e => .panic e,
   [ApiCall.signIn email password])

/-- Embeds `Client::send_otp` from src/client.rs lines 48-59: stateless
passthrough, `true` on transport success and `false` on failure. -/
def Client.send_otp (_c : Client) (who : EmailOrPhone)
    (should_create_user : Option Bool) (tr : Except ReqwestError Bool) :
    Bool × List ApiCall :=
  (match tr with
   | .ok _ => true
   | .error _ => false,
   [ApiCall.sendOtp who should_create_user])

/-- Embeds `Client::verify_otp` from src/client.rs lines 61-68: stateless
passthrough of an opaque serialized params payload. -/
def Client.verify_otp (_c : Client) (params : String)
    (tr : Except ReqwestError Bool) : Bool × List ApiCall :=
  (match tr with
   | .ok _ => true
   | .error _ => false,
   [ApiCall.verifyOtp params])

/-- Embeds `Client::sign_out` from src/client.rs lines 70-80.  With no current
session it returns `true` without calling the transport; otherwise it
calls `Api::sign_out` with the current access token and maps the outcome
to a boolean.  The method takes `&self`: the session state is never
modified. -/
def Client.sign_out (c : Client) (tr : Except ReqwestError Bool) :
    Bool × Client × List ApiCall :=
  match c.current_session with
  | none => (true, c, [])
  | some session =>
      (match tr with
       | .ok _ => true
       | .error _ => false,
       c,
       [ApiCall.signOut session.access_token])

/-- Embeds `Client::reset_password_for_email` from src/client.rs lines 82-89:
stateless passthrough. -/
def Client.reset_password_for_email (_c : Client) (email : String)
    (tr : Except ReqwestError Bool) : Bool × List ApiCall :=
  (match tr with
   | .ok _ => true
   | .error _ => false,
   [ApiCall.resetPasswordForEmail email])

/-- Embeds `Client::update_user` from src/client.rs lines 91-100.  With no
current session the code runs `panic!("Not logged in")`; otherwise it
calls `Api::update_user` with the current access token and propagates the
transport outcome with `?`. -/
def Client.update_user (c : Client) (user : UserAttributes)
    (tr : Except ReqwestError UserUpdate) :
    RustOutcome (Except ReqwestError UserUpdate) × List ApiCall :=
  match c.current_session with
  | none => (.panic "Not logged in", [])
  | some session =>
      (match tr with
       | .ok u => .ret (.ok u)
       | .error e => .ret (.error e),
       [ApiCall.updateUser user session.access_token])

/-- Embeds `Client::refresh_session` from src/client.rs lines 102-120.  If no
session is current, returns `Err(NotAuthenticated)` without a transport
call.  Then a second match on `current_session` calls
`Api::refresh_access_token` with the session's refresh token (its `None`
arm, returning `Err(MissingRefreshToken)`, is kept as in the source); a
transport failure becomes `Err(InternalError)` with the state untouched,
and a transport success installs and returns the fresh session. -/
def Client.refresh_session (c : Client) (tr : Except ReqwestError Session) :
    Except Error Session × Client × List ApiCall :=
  if c.current_session.isNone then
    (.error Error.NotAuthenticated, c, [])
  else
    match c.current_session with
    | some session =>
        (match tr with
         | .ok s => (.ok s, { c with current_session := some s },
             [ApiCall.refreshAccessToken session.refresh_token])
         | .error _ => (.error Error.InternalError, c,
             [ApiCall.refreshAccessToken session.refresh_token]))
    | none => (.error Error.MissingRefreshToken, c, [])

/-! Concrete sample values used by counterexamples and witnesses. -/

/-- Sample user record, per the spec §8 scenario. -/
def sampleUser : User :=
  { id := "u1", email := "a@example.com", phone := "" }

/-- Sample session with access token "tok1" and refresh token "r1". -/
def sampleSession : Session :=
  { access_token := "tok1", refresh_token := "r1", expires_in := 3600,
    user := sampleUser }

/-- Sample refreshed session with access token "tok2". -/
def sampleSession2 : Session :=
  { access_token := "tok2", refresh_token := "r2", expires_in := 3600,
    user := sampleUser }

/-- Sample user-attributes payload. -/
def sampleAttrs : UserAttributes :=
  { email := "a@example.com", password := "Abcd1234!", data := "" }

/-- Sample user-update payload. -/
def sampleUpdate : UserUpdate :=
  { user := sampleUser }

/-- A client holding `sampleSession` as its current session. -/
def authedClient : Client :=
  { current_session := some sampleSession, auto_refresh_token := true,
    api := Api.new "http://u" }

/-- A session whose refresh token is the empty string: no usable refresh
token. -/
def noTokenSession : Session :=
  { access_token := "tok1", refresh_token := "", expires_in := 3600,
    user := sampleUser }

/-- A client whose current session carries no usable refresh token. -/
def noTokenClient : Client :=
  { current_session := some noTokenSession, auto_refresh_token := true,
    api := Api.new "http://u" }

/-! Claim theorems. -/

/-- C1: the claim says sign_up and sign_in return a recoverable error
value when Transport fails and never panic.  The code does the opposite:
evaluating both operations at a concrete transport failure shows the
error path is a `panic!` (process abort), not a returned error value. -/
theorem C1_sign_up_sign_in_panic_on_transport_failure :
    (Client.sign_up (Client.new "http://u") "a@example.com" "Abcd1234!"
        (Except.error "connection refused")).1
      = RustOutcome.panic "connection refused" ∧
    (Client.sign_in (Client.new "http://u") "a@example.com" "Abcd1234!"
        (Except.error "connection refused")).1
      = RustOutcome.panic "connection refused" :=
  ⟨rfl, rfl⟩

/-- C2: the claim says a successful sign_out clears the current session,
so a subsequent update_user yields NotAuthenticated.  Evaluating the code
on an authenticated client with a successful transport outcome: sign_out
returns true but the current session is retained unchanged, and the
subsequent update_user still calls Transport with the old access token
"tok1" instead of failing with NotAuthenticated. -/
theorem C2_sign_out_success_retains_session :
    (Client.sign_out authedClient (Except.ok true)).1 = true ∧
    (Client.sign_out authedClient (Except.ok true)).2.1.current_session
      = some sampleSession ∧
    (Client.update_user (Client.sign_out authedClient (Except.ok true)).2.1
        sampleAttrs (Except.ok sampleUpdate)).2
      = [ApiCall.updateUser sampleAttrs "tok1"] :=
  ⟨rfl, rfl, rfl⟩

/-- C3: the claim says update_user with no current session fails with a
named "not authenticated" error value returned to the caller.  Evaluating
the code on a fresh client: update_user panics with "Not logged in"
(process termination) and performs no transport call. -/
theorem C3_update_user_panics_without_session :
    (Client.update_user (Client.new "http://u") sampleAttrs
        (Except.ok sampleUpdate)).1
      = RustOutcome.panic "Not logged in" ∧
    (Client.update_user (Client.new "http://u") sampleAttrs
        (Except.ok sampleUpdate)).2 = [] :=
  ⟨rfl, rfl⟩

/-- C4: for every client with no current session and every transport
outcome, refresh_session yields the NotAuthenticated error, leaves the
state unchanged, and performs no transport call. -/
theorem C4_refresh_without_session_not_authenticated (c : Client)
    (h : c.current_session = none) (tr : Except ReqwestError Session) :
    Client.refresh_session c tr = (Except.error Error.NotAuthenticated, c, []) := by
  simp [Client.refresh_session, h]

/-- Witness for C4 at a fresh client and a concrete transport outcome. -/
theorem C4_refresh_without_session_not_authenticated_witness :
    Client.refresh_session (Client.new "http://u") (Except.ok sampleSession)
      = (Except.error Error.NotAuthenticated, Client.new "http://u", []) :=
  C4_refresh_without_session_not_authenticated (Client.new "http://u") rfl
    (Except.ok sampleSession)

/-- C5: on every successful sign_up or sign_in, the returned session is
exactly the transport's session and it is installed as the current
session of the resulting state. -/
theorem C5_success_installs_transport_session (c : Client)
    (email password : String) (s : Session) :
    (Client.sign_up c email password (Except.ok s)).1
      = RustOutcome.ret (s, { c with current_session := some s }) ∧
    (Client.sign_in c email password (Except.ok s)).1
      = RustOutcome.ret (s, { c with current_session := some s }) :=
  ⟨rfl, rfl⟩

/-- C6: for every client holding a current session, refresh_session calls
Transport with that session's refresh token; on transport success the
whole current session is replaced by the returned one, and on transport
failure it returns the distinct InternalError with the state unchanged. -/
theorem C6_refresh_with_session (c : Client) (s : Session)
    (h : c.current_session = some s) :
    (∀ s2, Client.refresh_session c (Except.ok s2)
        = (Except.ok s2, { c with current_session := some s2 },
           [ApiCall.refreshAccessToken s.refresh_token])) ∧
    (∀ e, Client.refresh_session c (Except.error e)
        = (Except.error Error.InternalError, c,
           [ApiCall.refreshAccessToken s.refresh_token])) := by
  constructor <;> intro x <;> simp [Client.refresh_session, h]

/-- Witness for C6 at an authenticated client, for a concrete refreshed
session and a concrete transport failure. -/
theorem C6_refresh_with_session_witness :
    Client.refresh_session authedClient (Except.ok sampleSession2)
      = (Except.ok sampleSession2,
         { authedClient with current_session := some sampleSession2 },
         [ApiCall.refreshAccessToken sampleSession.refresh_token]) ∧
    Client.refresh_session authedClient (Except.error "boom")
      = (Except.error Error.InternalError, authedClient,
         [ApiCall.refreshAccessToken sampleSession.refresh_token]) :=
  ⟨(C6_refresh_with_session authedClient sampleSession rfl).1 sampleSession2,
   (C6_refresh_with_session authedClient sampleSession rfl).2 "boom"⟩

/-- C7: for every client with no current session and every transport
outcome, sign_out returns success, performs no transport call, and leaves
the state unchanged. -/
theorem C7_sign_out_without_session_noop (c : Client)
    (h : c.current_session = none) (tr : Except ReqwestError Bool) :
    Client.sign_out c tr = (true, c, []) := by
  simp [Client.sign_out, h]

/-- Witness for C7 at a fresh client and a concrete transport outcome. -/
theorem C7_sign_out_without_session_noop_witness :
    Client.sign_out (Client.new "http://u") (Except.error "boom")
      = (true, Client.new "http://u", []) :=
  C7_sign_out_without_session_noop (Client.new "http://u") rfl
    (Except.error "boom")

/-- C8 counterexample: a client whose current session has no usable
refresh token (the empty string).  The claim says refresh yields
MissingRefreshToken there; evaluating the code, refresh_session forwards
the empty token to Transport and, on transport failure, yields
InternalError — never MissingRefreshToken. -/
theorem C8_counterexample_no_missing_refresh_token :
    (Client.refresh_session noTokenClient (Except.error "400")).1
      = Except.error Error.InternalError ∧
    (Client.refresh_session noTokenClient (Except.error "400")).2.2
      = [ApiCall.refreshAccessToken ""] ∧
    ¬ (Client.refresh_session noTokenClient (Except.error "400")).1
      = Except.error Error.MissingRefreshToken := by
  refine ⟨rfl, rfl, ?_⟩
  intro h
  simp [Client.refresh_session, noTokenClient] at h

/-- C8 amended: refresh_session never returns MissingRefreshToken.  With
no current session it yields NotAuthenticated before inspecting the
refresh token; with a current session it forwards whatever refresh token
string the session holds to Transport, yielding the transport session on
success and InternalError on failure, so the MissingRefreshToken arm is
unreachable. -/
theorem C8_amended_missing_refresh_token_unreachable (c : Client)
    (tr : Except ReqwestError Session) :
    (Client.refresh_session c tr).1 = Except.error Error.NotAuthenticated ∨
    (∃ s, tr = Except.ok s ∧ (Client.refresh_session c tr).1 = Except.ok s) ∨
    ((∃ e, tr = Except.error e) ∧
      (Client.refresh_session c tr).1 = Except.error Error.InternalError) := by
  obtain ⟨cs, a, api⟩ := c
  cases cs with
  | none => left; simp [Client.refresh_session]
  | some s =>
      cases tr with
      | ok s2 => right; left; exact ⟨s2, rfl, by simp [Client.refresh_session]⟩
      | error e => right; right; exact ⟨⟨e, rfl⟩, by simp [Client.refresh_session]⟩

/-- C9: for every base URL, list_users with no query issues a GET to
exactly base_url ++ "/admin/users" with no query suffix, and with query
"?page=2" issues a GET to exactly base_url ++ "/admin/users?page=2" (the
query string is appended verbatim). -/
theorem C9_list_users_endpoints (base_url : String) :
    Api.list_users_request (Api.new base_url) none
      = { method := Method.GET, endpoint := base_url ++ "/admin/users",
          headers := [] } ∧
    Api.list_users_request (Api.new base_url) (some "?page=2")
      = { method := Method.GET, endpoint := base_url ++ "/admin/users?page=2",
          headers := [] } := by
  refine ⟨rfl, ?_⟩
  show Request.mk Method.GET (base_url ++ "/admin/users" ++ "?page=2") []
      = Request.mk Method.GET (base_url ++ "/admin/users?page=2") []
  rw [String.append_assoc]
  rfl

/-! Observable views for the flag-inertness hyperproperty: everything an
operation produces except the inert fields of the client record itself
(its result, the session component of the new state, and the transport
call trace). -/

/-- Observable view of a sign_up/sign_in outcome. -/
def signView (r : RustOutcome (Session × Client) × List ApiCall) :
    RustOutcome (Session × Option Session) × List ApiCall :=
  (match r.1 with
   | .ret (s, c) => .ret (s, c.current_session)
   | .panic m => .panic m,
   r.2)

/-- Observable view of a sign_out outcome. -/
def outView (r : Bool × Client × List ApiCall) :
    Bool × Option Session × List ApiCall :=
  (r.1, r.2.1.current_session, r.2.2)

/-- Observable view of a refresh_session outcome. -/
def refreshView (r : Except Error Session × Client × List ApiCall) :
    Except Error Session × Option Session × List ApiCall :=
  (r.1, r.2.1.current_session, r.2.2)

/-- C10: the stored auto_refresh_token flag is inert.  Two clients that
are identical except for that flag produce, for every operation and every
input and transport outcome, identical results, identical transport-call
traces, and identical session-state evolution: the flag is stored at
construction but never read. -/
theorem C10_auto_refresh_token_inert (c : Client) (b1 b2 : Bool)
    (email password params : String) (who : EmailOrPhone)
    (should_create_user : Option Bool) (attrs : UserAttributes)
    (trS : Except ReqwestError Session) (trB : Except ReqwestError Bool)
    (trU : Except ReqwestError UserUpdate) :
    signView (Client.sign_up { c with auto_refresh_token := b1 } email password trS)
      = signView (Client.sign_up { c with auto_refresh_token := b2 } email password trS) ∧
    signView (Client.sign_in { c with auto_refresh_token := b1 } email password trS)
      = signView (Client.sign_in { c with auto_refresh_token := b2 } email password trS) ∧
    Client.send_otp { c with auto_refresh_token := b1 } who should_create_user trB
      = Client.send_otp { c with auto_refresh_token := b2 } who should_create_user trB ∧
    Client.verify_otp { c with auto_refresh_token := b1 } params trB
      = Client.verify_otp { c with auto_refresh_token := b2 } params trB ∧
    outView (Client.sign_out { c with auto_refresh_token := b1 } trB)
      = outView (Client.sign_out { c with auto_refresh_token := b2 } trB) ∧
    Client.reset_password_for_email { c with auto_refresh_token := b1 } email trB
      = Client.reset_password_for_email { c with auto_refresh_token := b2 } email trB ∧
    Client.update_user { c with auto_refresh_token := b1 } attrs trU
      = Client.update_user { c with auto_refresh_token := b2 } attrs trU ∧
    refreshView (Client.refresh_session { c with auto_refresh_token := b1 } trS)
      = refreshView (Client.refresh_session { c with auto_refresh_token := b2 } trS) := by
  obtain ⟨cs, a, api⟩ := c
  cases cs <;> cases trS <;> cases trB <;> cases trU <;>
    exact ⟨rfl, rfl, rfl, rfl, rfl, rfl, rfl, rfl⟩

end GoTrue
